import Mathlib

/-!
Verification of the Engine Session Manager of the AIChessBot backend
(`backend/app/services/engine_manager.py`), shallowly embedded in Lean.

Engine scores, board state and the move-quality pipeline are modelled
directly from the Python source: the engine subprocess itself is external,
so its replies (raw infos / launch outcomes) are inputs to the embedded
functions, and everything the repository's code computes from them is
translated here.
-/

namespace EngineManager

/-- The tag of a formatted score dictionary, as produced by
`EngineManager._format_score` (`"cp"`, `"mate"` or `"unknown"`). -/
inductive ScoreType
  | cp
  | mate
  | unknown
deriving DecidableEq, Repr

/-- The `{"type": ..., "value": ...}` dictionary returned by
`EngineManager._format_score` (the `display` string is presentation only
and carries no further information used by the manager). -/
structure FormattedScore where
  type : ScoreType
  value : Int
deriving DecidableEq, Repr

/-- A raw engine score as delivered by the UCI library
(`score.relative`): either mate in `n` (signed, positive = the side to
move mates) or `n` centipawns from the side to move's perspective. -/
inductive RawScore
  | mate (n : Int)
  | cp (n : Int)
deriving DecidableEq, Repr

/-- `EngineManager._format_score`: a missing score becomes
`{"type": "unknown", "value": 0}`; a mate score keeps its signed
plies-to-mate as `value`; otherwise the centipawn value is kept. -/
def formatScore : Option RawScore → FormattedScore
  | none => ⟨.unknown, 0⟩
  | some (.mate n) => ⟨.mate, n⟩
  | some (.cp n) => ⟨.cp, n⟩

/-- `EngineManager._classify_move`: the cascade of threshold tests on the
score difference, in source order. -/
def classifyMove (scoreDiff : Int) : String :=
  if scoreDiff ≤ -300 then "blunder"
  else if scoreDiff ≤ -100 then "mistake"
  else if scoreDiff ≤ -50 then "inaccuracy"
  else if scoreDiff ≥ 100 then "brilliant"
  else if scoreDiff ≥ 0 then "good"
  else "ok"

/-- The six labels the classifier may return. -/
def moveLabels : List String :=
  ["blunder", "mistake", "inaccuracy", "ok", "good", "brilliant"]

/-- C1: `classify` is total, the six bands partition the integers exactly
as the §4.4 table states, the four boundary values are exact, and every
output is one of the six labels (so ties resolve to the less severe
band by the band characterisation). -/
theorem classify_partitions_bands (d : Int) :
    (classifyMove d ∈ moveLabels) ∧
    (classifyMove d = "blunder" ↔ d ≤ -300) ∧
    (classifyMove d = "mistake" ↔ -299 ≤ d ∧ d ≤ -100) ∧
    (classifyMove d = "inaccuracy" ↔ -99 ≤ d ∧ d ≤ -50) ∧
    (classifyMove d = "ok" ↔ -49 ≤ d ∧ d ≤ -1) ∧
    (classifyMove d = "good" ↔ 0 ≤ d ∧ d ≤ 99) ∧
    (classifyMove d = "brilliant" ↔ 100 ≤ d) ∧
    classifyMove (-100) = "mistake" ∧ classifyMove (-99) = "inaccuracy" ∧
    classifyMove 99 = "good" ∧ classifyMove 100 = "brilliant" := by
  refine ⟨?_, ?_, ?_, ?_, ?_, ?_, ?_, by decide, by decide, by decide, by decide⟩ <;>
    unfold classifyMove <;>
    split_ifs <;>
    first
      | decide
      | exact iff_of_true rfl (by omega)
      | exact iff_of_false (by decide) (by omega)

/-- The identity of an engine adapter: `strong` is Stockfish, `humanLike`
is Maia. -/
inductive EngineKind
  | strong
  | humanLike
deriving DecidableEq, Repr

/-- The UCI strength options `get_best_move` configures on Stockfish
(`UCI_LimitStrength` and `UCI_Elo`); at launch Stockfish runs at full
strength with no ELO target applied. -/
structure EngineConfig where
  limitStrength : Bool
  uciElo : Option Int
deriving DecidableEq, Repr

/-- Stockfish's configuration when the subprocess is freshly launched:
full strength, no ELO option set. -/
def fullStrength : EngineConfig := ⟨false, none⟩

/-- The manager's mutable state: which engines are live
(`stockfish_engine` / `maia_engine` non-`None`) and the strength options
currently applied to the Stockfish process. -/
structure ManagerState where
  stockfishLive : Bool
  maiaLive : Bool
  stockfishConfig : EngineConfig
deriving DecidableEq, Repr

/-- `EngineManager.is_ready`: true iff the Stockfish engine is live. -/
def isReady (s : ManagerState) : Bool := s.stockfishLive

/-- `EngineManager.maia_available`. -/
def maiaAvailable (s : ManagerState) : Bool := s.maiaLive

/-- The adapter-selection expression shared by `analyze_position` and
`get_best_move`:
`engine = self.maia_engine if use_maia and self.maia_engine else self.stockfish_engine`,
followed by the `if not engine: raise` check. `none` is the raised
`RuntimeError` ("no chess engine available"). -/
def selectEngine (s : ManagerState) (useMaia : Bool) : Option EngineKind :=
  if useMaia && s.maiaLive then some .humanLike
  else if s.stockfishLive then some .strong
  else none

/-- Outcome of locating and launching one engine binary inside
`_init_stockfish` / `_init_maia`: the binary may be absent at every
probed path, the launch may throw, or the engine comes up. -/
inductive LaunchOutcome
  | notFound
  | launchFailed
  | ok
deriving DecidableEq, Repr

/-- The body of `_init_stockfish` / `_init_maia` before its `except`
clause: a missing binary only logs a warning (no engine), a failing
`popen_uci` raises, a successful launch yields a live engine. -/
def initEngineAttempt : LaunchOutcome → Except String Bool
  | .notFound => .ok false
  | .launchFailed => .error "Failed to initialize engine"
  | .ok => .ok true

/-- `_init_stockfish` / `_init_maia` including the `except Exception`
clause, which logs the error and leaves the engine unset. -/
def initEngine (o : LaunchOutcome) : Bool :=
  match initEngineAttempt o with
  | .ok live => live
  | .error _ => false

/-- `EngineManager.initialize`: runs both engine initialisers (each of
which swallows its own failures) and logs the degraded conditions; it is
a total function of the two launch outcomes — no path raises. -/
def initializeEngines (stockfishOutcome maiaOutcome : LaunchOutcome) : ManagerState :=
  { stockfishLive := initEngine stockfishOutcome
    maiaLive := initEngine maiaOutcome
    stockfishConfig := fullStrength }

/-- `EngineManager.get_best_move`, restricted to the state it reads and
writes: selects the adapter, raises if none, and — when `elo` is truthy
(non-`None` and non-zero, Python's `if elo`) and the selected engine is
the Stockfish object — configures `UCI_LimitStrength: True, UCI_Elo: elo`
via `_set_elo_limit`. Returns the selected kind and the state after the
request. -/
def getBestMove (s : ManagerState) (useMaia : Bool) (elo : Option Int) :
    Except String (EngineKind × ManagerState) :=
  match selectEngine s useMaia with
  | none => .error "No chess engine available"
  | some k =>
    let eloTruthy := match elo with
      | some e => decide (e ≠ 0)
      | none => false
    if eloTruthy && (k == .strong) then
      match elo with
      | some e => .ok (k, { s with stockfishConfig := ⟨true, some e⟩ })
      | none => .ok (k, s)
    else
      .ok (k, s)

/-- One raw multipv item from `engine.analyse`: the optional `score`
(already taken `.relative` by `_format_score`), the principal variation
as UCI strings, and the reported depth. -/
structure RawInfo where
  score : Option RawScore
  pv : List String
  depth : Option Nat
deriving DecidableEq, Repr

/-- One element of the list `analyze_position` returns:
`{"move": pv[0] or None, "score": _format_score(score), "depth": ...,
"pv": pv[:5]}`. -/
structure AnalysisLine where
  move : Option String
  score : FormattedScore
  depth : Option Nat
  pv : List String
deriving DecidableEq, Repr

/-- The loop body of `analyze_position` building one result dict from
one raw info item. -/
def toAnalysisLine (item : RawInfo) : AnalysisLine :=
  { move := item.pv.head?
    score := formatScore item.score
    depth := item.depth
    pv := item.pv.take 5 }

/-- `EngineManager.analyze_position`: selects the adapter (raising
`RuntimeError` when none is live), then maps the engine's raw reply to
result dicts; an exception from the engine call is logged and re-raised.
The engine subprocess is external, so its reply (or failure) is the
`engineReply` input. -/
def analyzePosition (s : ManagerState) (useMaia : Bool)
    (engineReply : Except String (List RawInfo)) :
    Except String (List AnalysisLine) :=
  match selectEngine s useMaia with
  | none => .error "No chess engine available for analysis"
  | some _ =>
    match engineReply with
    | .error e => .error e
    | .ok items => .ok (items.map toAnalysisLine)

/-- The caller-owned `chess.Board`: an initial position (FEN plus whose
turn it is there) and the stack of pushed moves, most recent first. Two
boards serialize identically iff they are equal. -/
structure Board where
  baseFen : String
  baseTurnWhite : Bool
  stack : List String
deriving DecidableEq, Repr

/-- `board.push(move)`: the move goes onto the move stack and the side
to move flips. -/
def Board.push (b : Board) (m : String) : Board :=
  { b with stack := m :: b.stack }

/-- `board.pop()`: removes the most recent move from the stack. -/
def Board.pop (b : Board) : Board :=
  { b with stack := b.stack.tail }

/-- `board.turn == chess.WHITE`: the base side to move, flipped once per
pushed move. -/
def Board.turnWhite (b : Board) : Bool :=
  if b.stack.length % 2 == 0 then b.baseTurnWhite else !b.baseTurnWhite

/-- The dict `evaluate_move_quality` returns. -/
structure MoveEval where
  move : String
  classification : String
  scoreDifference : Int
  beforeScore : Int
  afterScore : Int
  bestMove : Option String
deriving DecidableEq, Repr

/-- `EngineManager.evaluate_move_quality`: requires Stockfish, analyses
the position, pushes the move on the caller's board, analyses again,
pops, computes
`score_diff = before - after if board.turn == WHITE else after - before`
and classifies it. The two engine replies are inputs (the subprocess is
external). The returned pair is (result or propagated exception, the
state of the caller's board when control returns): an exception from the
second analysis propagates with no `pop`, since the source has no
`try/finally` around the push. -/
def evaluateMoveQuality (s : ManagerState) (b : Board) (move : String)
    (beforeReply afterReply : Except String (List RawInfo)) :
    Except String MoveEval × Board :=
  if !s.stockfishLive then (.error "Stockfish required for move evaluation", b)
  else
    match analyzePosition s false beforeReply with
    | .error e => (.error e, b)
    | .ok beforeLines =>
      let bPushed := b.push move
      match analyzePosition s false afterReply with
      | .error e => (.error e, bPushed)
      | .ok afterLines =>
        let bPopped := bPushed.pop
        let beforeScore := match beforeLines.head? with
          | some l => l.score.value
          | none => 0
        let afterScore := match afterLines.head? with
          | some l => l.score.value
          | none => 0
        let scoreDiff :=
          if bPopped.turnWhite then beforeScore - afterScore
          else afterScore - beforeScore
        let bestMove := match beforeLines.head? with
          | some l => l.move
          | none => none
        (.ok { move := move
               classification := classifyMove scoreDiff
               scoreDifference := scoreDiff
               beforeScore := beforeScore
               afterScore := afterScore
               bestMove := bestMove }, bPopped)

/-- Modelled from the spec (§3, §4.3): the true change in evaluation
from the mover's perspective, when the engine reports each score
relative to the side to move of its own position. Before the move the
mover is the side to move, so their evaluation is `before`; after the
move the opponent is the side to move, so the mover's evaluation is
`-after`. The change is the difference of the two. This definition is
the spec's yardstick, to be compared with what the source computes. -/
def moverPerspectiveDelta (before after : Int) : Int :=
  (-after) - before

theorem Board.push_pop (b : Board) (m : String) : (b.push m).pop = b := rfl

theorem Board.push_pop_turn (b : Board) (m : String) :
    ((b.push m).pop).turnWhite = b.turnWhite := rfl

/-- C2: refuted on the code — `evaluate_move_quality` subtracts the raw
`value` fields even when one is a mate count and the other a centipawn
count. White to move at +200 cp plays a move after which the opponent
mates in 2 (`after` score `mate 2` relative to the opponent): the code
computes `200 - 2 = 198` and labels the move "brilliant", where the
claim demands at most "blunder". -/
theorem evaluate_mate_mixed_with_cp :
    (evaluateMoveQuality ⟨true, false, fullStrength⟩ ⟨"fen0", true, []⟩ "f2f3"
        (.ok [⟨some (.cp 200), ["e2e4"], some 18⟩])
        (.ok [⟨some (.mate 2), ["d8h4"], some 18⟩])).1 =
      .ok ⟨"f2f3", "brilliant", 198, 200, 2, some "e2e4"⟩ ∧
    formatScore (some (.mate 2)) = ⟨.mate, 2⟩ ∧
    formatScore (some (.cp 200)) = ⟨.cp, 200⟩ := by
  refine ⟨rfl, rfl, rfl⟩

/-- C3: refuted on the code — the reported `score_difference` is not the
change of evaluation from the mover's perspective. Both engine scores
are relative to the side to move of their own position, so an
evaluation-preserving move has `after = -before` and a true delta of 0;
the code instead computes `before - after` for a White mover (here
`200 - (-200) = 400`, labelled "brilliant") and `after - before` for a
Black mover (`-400`, labelled "blunder"). -/
theorem evaluate_score_diff_wrong_perspective :
    (evaluateMoveQuality ⟨true, false, fullStrength⟩ ⟨"fen0", true, []⟩ "e2e4"
        (.ok [⟨some (.cp 200), ["e2e4"], some 18⟩])
        (.ok [⟨some (.cp (-200)), ["g8f6"], some 18⟩])).1 =
      .ok ⟨"e2e4", "brilliant", 400, 200, -200, some "e2e4"⟩ ∧
    moverPerspectiveDelta 200 (-200) = 0 ∧
    (evaluateMoveQuality ⟨true, false, fullStrength⟩ ⟨"fen1", false, []⟩ "e7e5"
        (.ok [⟨some (.cp 200), ["e7e5"], some 18⟩])
        (.ok [⟨some (.cp (-200)), ["g1f3"], some 18⟩])).1 =
      .ok ⟨"e7e5", "blunder", -400, 200, -200, some "e7e5"⟩ ∧
    classifyMove (moverPerspectiveDelta 200 (-200)) = "good" := by
  refine ⟨rfl, rfl, rfl, rfl⟩

/-- C4 counterexample: when the second (post-move) analysis raises, the
exception propagates from between `board.push` and `board.pop`, so the
caller's board comes back with the move still applied — not in its
original serialized state. -/
theorem evaluate_board_left_mutated_on_failure :
    (evaluateMoveQuality ⟨true, false, fullStrength⟩ ⟨"fen0", true, []⟩ "e2e4"
        (.ok [⟨some (.cp 10), ["e2e4"], some 18⟩]) (.error "engine crashed")).2 =
      ⟨"fen0", true, ["e2e4"]⟩ ∧
    (⟨"fen0", true, ["e2e4"]⟩ : Board) ≠ ⟨"fen0", true, []⟩ := by
  refine ⟨rfl, by decide⟩

/-- C4 amended: `evaluate_move_quality` restores the caller's board
exactly on the successful path (push then pop), but when the second
analysis fails the board is returned with the move still pushed. -/
theorem evaluate_board_restored_only_on_success (s : ManagerState) (b : Board)
    (move : String) (l1 l2 : List RawInfo) (e : String)
    (h : s.stockfishLive = true) :
    (evaluateMoveQuality s b move (.ok l1) (.ok l2)).2 = b ∧
    (evaluateMoveQuality s b move (.ok l1) (.error e)).2 = b.push move := by
  unfold evaluateMoveQuality analyzePosition selectEngine
  simp [h, Board.push_pop]

/-- C4 amended, witness. -/
theorem evaluate_board_restored_only_on_success_witness :
    (evaluateMoveQuality ⟨true, false, fullStrength⟩ ⟨"fen0", true, []⟩ "e2e4"
        (.ok []) (.ok [])).2 = ⟨"fen0", true, []⟩ ∧
    (evaluateMoveQuality ⟨true, false, fullStrength⟩ ⟨"fen0", true, []⟩ "e2e4"
        (.ok []) (.error "boom")).2 = Board.push ⟨"fen0", true, []⟩ "e2e4" :=
  evaluate_board_restored_only_on_success ⟨true, false, fullStrength⟩
    ⟨"fen0", true, []⟩ "e2e4" [] [] "boom" rfl

/-- C5 counterexample: `get_best_move` never resets the strength
options. After an ELO-limited request (target 1350) on a fresh
full-strength manager, a subsequent request without an ELO target runs
with `UCI_LimitStrength: True, UCI_Elo: 1350` still applied — not full
strength. -/
theorem elo_limit_leaks_into_next_request :
    getBestMove ⟨true, true, fullStrength⟩ false (some 1350) =
      .ok (.strong, ⟨true, true, ⟨true, some 1350⟩⟩) ∧
    getBestMove ⟨true, true, ⟨true, some 1350⟩⟩ false none =
      .ok (.strong, ⟨true, true, ⟨true, some 1350⟩⟩) ∧
    (⟨true, some 1350⟩ : EngineConfig) ≠ fullStrength := by
  refine ⟨rfl, rfl, by decide⟩

/-- C5 amended: the strength-limit configuration set by an ELO-targeted
`get_best_move` persists: an untargeted request never modifies the
configuration, so the next untargeted request observes the engine still
limited to the previous ELO, not full strength. -/
theorem elo_limit_persists (s : ManagerState) (e : Int) (um : Bool)
    (hs : s.stockfishLive = true) (he : e ≠ 0) :
    getBestMove s false (some e) =
      .ok (.strong, { s with stockfishConfig := ⟨true, some e⟩ }) ∧
    (getBestMove { s with stockfishConfig := ⟨true, some e⟩ } um none).map
        Prod.snd =
      .ok { s with stockfishConfig := ⟨true, some e⟩ } := by
  constructor
  · unfold getBestMove selectEngine
    simp [hs, he]
  · unfold getBestMove selectEngine
    rcases um <;> rcases hm : s.maiaLive <;> simp [hs, hm, Except.map]

/-- C5 amended, witness. -/
theorem elo_limit_persists_witness :
    getBestMove ⟨true, true, fullStrength⟩ false (some 1350) =
      .ok (.strong, ⟨true, true, ⟨true, some 1350⟩⟩) ∧
    (getBestMove ⟨true, true, ⟨true, some 1350⟩⟩ false none).map Prod.snd =
      .ok ⟨true, true, ⟨true, some 1350⟩⟩ :=
  elo_limit_persists ⟨true, true, fullStrength⟩ 1350 false rfl (by decide)

/-- C6 counterexample: with the strong engine dead but the human-like
engine live, an untargeted request (`preferHumanLike = false`) fails
with the no-engine error even though one adapter is live — so "fails iff
neither adapter is live" does not hold. -/
theorem selection_fails_despite_live_maia :
    analyzePosition ⟨false, true, fullStrength⟩ false (.ok []) =
      .error "No chess engine available for analysis" ∧
    getBestMove ⟨false, true, fullStrength⟩ false none =
      .error "No chess engine available" ∧
    maiaAvailable ⟨false, true, fullStrength⟩ = true := by
  refine ⟨rfl, rfl, rfl⟩

/-- C6 amended: the human-like adapter is selected iff `preferHumanLike`
is true and it is live (so `preferHumanLike` with the human-like engine
absent silently falls back to the strong engine); otherwise the strong
adapter is selected when live; and the request fails iff the adapter
chosen by this rule is not live — i.e. iff the strong engine is dead and
the human-like engine is not preferred-and-live. -/
theorem engine_selection_rule (s : ManagerState) (useMaia : Bool)
    (items : List RawInfo) :
    (selectEngine s useMaia = some .humanLike ↔
      useMaia = true ∧ s.maiaLive = true) ∧
    (selectEngine s useMaia = some .strong ↔
      ¬(useMaia = true ∧ s.maiaLive = true) ∧ s.stockfishLive = true) ∧
    (selectEngine s useMaia = none ↔
      ¬(useMaia = true ∧ s.maiaLive = true) ∧ s.stockfishLive = false) ∧
    (analyzePosition s useMaia (.ok items) =
        .error "No chess engine available for analysis" ↔
      selectEngine s useMaia = none) := by
  rcases s with ⟨st, ma, cfg⟩
  rcases st <;> rcases ma <;> rcases useMaia <;>
    simp [selectEngine, analyzePosition]

/-- C7 counterexample: `_format_score` on a missing score returns
`{"type": "unknown", "value": 0}` — a third, distinct score kind, not
the centipawn variant the claim requires. -/
theorem format_score_missing_is_unknown_kind :
    formatScore none = ⟨.unknown, 0⟩ ∧
    (formatScore none).type ≠ ScoreType.cp := by
  refine ⟨rfl, by decide⟩

/-- C7 amended: `_format_score` is total and never raises; a missing
raw score maps to a zero-valued score of the distinct `"unknown"` kind
(and that kind arises only for a missing score), not to the centipawn
variant and not to an error. -/
theorem format_score_total_unknown_on_missing (r : Option RawScore) :
    ((formatScore r).type = ScoreType.unknown ↔ r = none) ∧
    formatScore none = ⟨.unknown, 0⟩ := by
  rcases r with _ | r
  · exact ⟨by simp [formatScore], rfl⟩
  · rcases r <;> exact ⟨by simp [formatScore], rfl⟩

/-- C8: `initialize` with both engine binaries absent completes (it is a
total function of the launch outcomes: every exception of the per-engine
bodies is caught), leaves both engines down, and `is_ready` is false;
more generally a launch failure never aborts initialization and
readiness equals exactly "the strong engine came up". -/
theorem initialize_absent_engines_not_ready (so mo : LaunchOutcome) :
    isReady (initializeEngines .notFound .notFound) = false ∧
    isReady (initializeEngines so mo) = (so == .ok) ∧
    initEngine so = (so == .ok) ∧
    initEngine .launchFailed = false := by
  rcases so <;> rcases mo <;> exact ⟨rfl, rfl, rfl, rfl⟩

/-- C10: when either analysis returns an empty line list,
`evaluate_move_quality` still returns a result: it substitutes 0 for the
missing before/after scores and `None` for the best-alternative move,
classifies the zero delta as "good", and the output is identical to that
of a genuine zero-centipawn analysis whose line has an empty principal
variation. -/
theorem evaluate_empty_analysis_degrades_to_zero (s : ManagerState) (b : Board)
    (move : String) (h : s.stockfishLive = true) :
    evaluateMoveQuality s b move (.ok []) (.ok []) =
      (.ok ⟨move, "good", 0, 0, 0, none⟩, b) ∧
    evaluateMoveQuality s b move (.ok []) (.ok []) =
      evaluateMoveQuality s b move
        (.ok [⟨some (.cp 0), [], some 18⟩])
        (.ok [⟨some (.cp 0), [], some 18⟩]) := by
  unfold evaluateMoveQuality analyzePosition selectEngine
  simp [h, Board.push_pop, toAnalysisLine, formatScore, classifyMove]

/-- C10 witness. -/
theorem evaluate_empty_analysis_degrades_to_zero_witness :
    evaluateMoveQuality ⟨true, false, fullStrength⟩ ⟨"fen0", true, []⟩ "e2e4"
        (.ok []) (.ok []) =
      (.ok ⟨"e2e4", "good", 0, 0, 0, none⟩, ⟨"fen0", true, []⟩) ∧
    evaluateMoveQuality ⟨true, false, fullStrength⟩ ⟨"fen0", true, []⟩ "e2e4"
        (.ok []) (.ok []) =
      evaluateMoveQuality ⟨true, false, fullStrength⟩ ⟨"fen0", true, []⟩ "e2e4"
        (.ok [⟨some (.cp 0), [], some 18⟩])
        (.ok [⟨some (.cp 0), [], some 18⟩]) :=
  evaluate_empty_analysis_degrades_to_zero ⟨true, false, fullStrength⟩
    ⟨"fen0", true, []⟩ "e2e4" rfl

end EngineManager
